import Mathlib

/-!
Shallow embedding of the CiA 402 device state machine of
`src/cia402device/lib/cia402device/cia402device.c` (`cia402_initialize` and
`cia402_state_machine`), together with theorems settling the behavioural
claims about it.

The companion header `cia402device.h` is not part of the given sources; the
protocol constants it defines (state codes doubling as status-word indicator
patterns, control-word command masks/patterns, the AL "operational" sentinel)
are modelled from the spec, which names them as the CiA 402 / EtherCAT
protocol constants.

Machine integers are modelled as `Nat` (all constants fit in 16 bits and the
code only masks and ORs them, so no overflow arises).  The two caller-owned
slots reached through pointers (`statusword`, `ALstatus`) are modelled as
addresses into an explicit memory `Mem : Nat → Nat`.
-/

/-- Modelled from the spec: the EtherCAT application-layer "Operational"
sentinel `AL_STATUS_OP` (the one fixed operational value; every other
link-status value counts as "not operational"). -/
def AL_STATUS_OP : Nat := 0x08

/-- Modelled from the spec: CiA 402 state code of NotReadyToSwitchOn, doubling
as its status-word indicator pattern. -/
def NOT_READY_TO_SWITCH_ON : Nat := 0x00

/-- Modelled from the spec: CiA 402 state code of SwitchOnDisabled. -/
def SWITCH_ON_DISABLED : Nat := 0x40

/-- Modelled from the spec: CiA 402 state code of ReadyToSwitchOn. -/
def READY_TO_SWITCH_ON : Nat := 0x21

/-- Modelled from the spec: CiA 402 state code of SwitchedOn. -/
def SWITCHED_ON : Nat := 0x23

/-- Modelled from the spec: CiA 402 state code of OperationEnabled. -/
def OPERATION_ENABLED : Nat := 0x27

/-- Modelled from the spec: CiA 402 state code of QuickStopActive. -/
def QUICK_STOP_ACTIVE : Nat := 0x07

/-- Modelled from the spec: CiA 402 state code of FaultReactionActive. -/
def FAULT_REACTION_ACTIVE : Nat := 0x0F

/-- Modelled from the spec: CiA 402 state code of Fault. -/
def FAULT : Nat := 0x08

/-- The eight defined `AxisState` values (state codes as stored in the axis
record and OR'ed into the status word). -/
def definedStates : List Nat :=
  [NOT_READY_TO_SWITCH_ON, SWITCH_ON_DISABLED, READY_TO_SWITCH_ON, SWITCHED_ON,
   OPERATION_ENABLED, QUICK_STOP_ACTIVE, FAULT_REACTION_ACTIVE, FAULT]

/-- The control-word commands tested by `IS_CIA402_COMMAND` in the source. -/
inductive Cmd where
  | SHUTDOWN
  | SWITCH_ON
  | SWITCH_ON_ENABLE
  | DISABLE_VOLTAGE
  | QUICK_STOP
  | DISABLE_OPERATION
  | ENABLE_OPERATION
  | FAULT_RESET
deriving DecidableEq

/-- Modelled from the spec: the CiA 402 control-word masks
`CIA402_CONTROLWORD_<CMD>_MASK`. -/
def Cmd.mask : Cmd → Nat
  | .SHUTDOWN => 0x0087
  | .SWITCH_ON => 0x0087
  | .SWITCH_ON_ENABLE => 0x008F
  | .DISABLE_VOLTAGE => 0x0082
  | .QUICK_STOP => 0x0086
  | .DISABLE_OPERATION => 0x008F
  | .ENABLE_OPERATION => 0x008F
  | .FAULT_RESET => 0x0080

/-- Modelled from the spec: the CiA 402 control-word command patterns
`CIA402_CONTROLWORD_<CMD>_COMMAND`. -/
def Cmd.pattern : Cmd → Nat
  | .SHUTDOWN => 0x0006
  | .SWITCH_ON => 0x0007
  | .SWITCH_ON_ENABLE => 0x000F
  | .DISABLE_VOLTAGE => 0x0000
  | .QUICK_STOP => 0x0002
  | .DISABLE_OPERATION => 0x0007
  | .ENABLE_OPERATION => 0x000F
  | .FAULT_RESET => 0x0080

/-- `IS_CIA402_COMMAND(controlword, CMD)`:
`(controlword & CIA402_MASK(CMD)) == CIA402_COMMAND(CMD)`. -/
def IS_CIA402_COMMAND (controlword : Nat) (cmd : Cmd) : Bool :=
  controlword &&& cmd.mask == cmd.pattern

/-- The transition tags of the source's transition enumeration. -/
inductive Transition where
  | NO_TRANSITION
  | NOT_READY_TO_SWITCH_ON_TO_SWITCH_ON_DISABLED
  | SWITCH_ON_DISABLED_TO_READY_TO_SWITCH_ON
  | READY_TO_SWITCH_ON_TO_SWITCH_ON_DISABLED
  | READY_TO_SWITCH_ON_TO_SWITCHED_ON
  | READY_TO_SWITCH_ON_TO_OPERATION_ENABLED
  | SWITCHED_ON_TO_READY_TO_SWITCH_ON
  | SWITCHED_ON_TO_OPERATION_ENABLED
  | SWITCHED_ON_TO_SWITCH_ON_DISABLED
  | OPERATION_ENABLED_TO_SWITCHED_ON
  | OPERATION_ENABLED_TO_READY_TO_SWITCH_ON
  | OPERATION_ENABLED_TO_SWITCH_ON_DISABLED
  | OPERATION_ENABLED_TO_QUICK_STOP_ACTIVE
  | QUICK_STOP_ACTIVE_TO_SWITCH_ON_DISABLED
  | QUICK_STOP_ACTIVE_TO_OPERATION_ENABLED
  | FAULT_REACTION_ACTIVE_TO_FAULT
  | FAULT_TO_SWITCH_ON_DISABLED
deriving DecidableEq

/-- `cia402_flags_t`: the four derived hardware-enable flags. -/
structure cia402_flags_t where
  config_allowed : Bool
  axis_func_enabled : Bool
  hv_power_applied : Bool
  brake_applied : Bool
deriving DecidableEq

/-- `cia402_axis_t`: the axis record.  The two pointer members are modelled as
addresses into `Mem`; `state` is kept as a raw integer (the C enum is an
integer and the machine has an explicit arm for unrecognized values). -/
structure cia402_axis_t where
  ALstatus : Nat
  statusword : Nat
  state : Nat
  transition : Transition
  flags : cia402_flags_t
  prevflags : cia402_flags_t
deriving DecidableEq

/-- Caller-owned memory holding the 16-bit slots the axis record points into. -/
def Mem : Type := Nat → Nat

/-- Read the slot at address `a`. -/
def Mem.read (m : Mem) (a : Nat) : Nat := m a

/-- Write `v` into the slot at address `a`. -/
def Mem.write (m : Mem) (a v : Nat) : Mem := fun x => if x = a then v else m x

/-- `cia402_initialize`: binds the two caller-owned slots into the record and
resets state, transition and flags (`prevflags` copies the just-set flags). -/
def cia402_initialize (statusword ALstatus : Nat) : cia402_axis_t :=
  { ALstatus := ALstatus
    statusword := statusword
    state := NOT_READY_TO_SWITCH_ON
    transition := Transition.NO_TRANSITION
    flags := { config_allowed := false, axis_func_enabled := false
               hv_power_applied := false, brake_applied := false }
    prevflags := { config_allowed := false, axis_func_enabled := false
                   hv_power_applied := false, brake_applied := false } }

/-- The first `switch (axis->state)` of `cia402_state_machine`: given the
record (with `transition` already reset and `prevflags` snapshotted), the
control word and the already-evaluated link test `*ALstatus == AL_STATUS_OP`,
returns the updated record and the bits OR'ed into the (just cleared) status
word.  In the `QUICK_STOP_ACTIVE` arm the `ENABLE_OPERATION` branch executes
only `*statusword |= QUICK_STOP_ACTIVE; break;` — the statements after the
`break` (transition 16 to `OPERATION_ENABLED`) are unreachable and hence do
not appear in the embedding. -/
def cia402_transition_evaluator (axis : cia402_axis_t) (controlword : Nat)
    (alOp : Bool) : cia402_axis_t × Nat :=
  if axis.state = NOT_READY_TO_SWITCH_ON then
    if alOp then
      ({ axis with
          state := SWITCH_ON_DISABLED
          transition := Transition.NOT_READY_TO_SWITCH_ON_TO_SWITCH_ON_DISABLED },
       0x0000 ||| SWITCH_ON_DISABLED)
    else
      (axis, 0x0000 ||| NOT_READY_TO_SWITCH_ON)
  else if axis.state = SWITCH_ON_DISABLED then
    if IS_CIA402_COMMAND controlword Cmd.SHUTDOWN || alOp then
      ({ axis with
          state := READY_TO_SWITCH_ON
          transition := Transition.SWITCH_ON_DISABLED_TO_READY_TO_SWITCH_ON },
       0x0000 ||| READY_TO_SWITCH_ON)
    else
      (axis, 0x0000 ||| SWITCH_ON_DISABLED)
  else if axis.state = READY_TO_SWITCH_ON then
    if IS_CIA402_COMMAND controlword Cmd.DISABLE_VOLTAGE then
      ({ axis with
          state := SWITCH_ON_DISABLED
          transition := Transition.READY_TO_SWITCH_ON_TO_SWITCH_ON_DISABLED },
       0x0000 ||| SWITCH_ON_DISABLED)
    else if IS_CIA402_COMMAND controlword Cmd.SWITCH_ON then
      if IS_CIA402_COMMAND controlword Cmd.SWITCH_ON_ENABLE then
        ({ axis with
            state := OPERATION_ENABLED
            transition := Transition.READY_TO_SWITCH_ON_TO_OPERATION_ENABLED },
         (0x0000 ||| SWITCHED_ON) ||| OPERATION_ENABLED)
      else
        ({ axis with
            state := SWITCHED_ON
            transition := Transition.READY_TO_SWITCH_ON_TO_SWITCHED_ON },
         0x0000 ||| SWITCHED_ON)
    else
      (axis, 0x0000 ||| READY_TO_SWITCH_ON)
  else if axis.state = SWITCHED_ON then
    if IS_CIA402_COMMAND controlword Cmd.SHUTDOWN then
      ({ axis with
          state := READY_TO_SWITCH_ON
          transition := Transition.SWITCHED_ON_TO_READY_TO_SWITCH_ON },
       0x0000 ||| READY_TO_SWITCH_ON)
    else if IS_CIA402_COMMAND controlword Cmd.ENABLE_OPERATION then
      ({ axis with
          state := OPERATION_ENABLED
          transition := Transition.SWITCHED_ON_TO_OPERATION_ENABLED },
       0x0000 ||| OPERATION_ENABLED)
    else if IS_CIA402_COMMAND controlword Cmd.DISABLE_VOLTAGE then
      ({ axis with
          state := SWITCH_ON_DISABLED
          transition := Transition.SWITCHED_ON_TO_SWITCH_ON_DISABLED },
       0x0000 ||| SWITCH_ON_DISABLED)
    else
      (axis, 0x0000 ||| SWITCHED_ON)
  else if axis.state = OPERATION_ENABLED then
    if IS_CIA402_COMMAND controlword Cmd.DISABLE_OPERATION then
      ({ axis with
          state := SWITCHED_ON
          transition := Transition.OPERATION_ENABLED_TO_SWITCHED_ON },
       0x0000 ||| SWITCHED_ON)
    else if IS_CIA402_COMMAND controlword Cmd.SHUTDOWN then
      ({ axis with
          state := READY_TO_SWITCH_ON
          transition := Transition.OPERATION_ENABLED_TO_READY_TO_SWITCH_ON },
       0x0000 ||| READY_TO_SWITCH_ON)
    else if IS_CIA402_COMMAND controlword Cmd.DISABLE_VOLTAGE || !alOp then
      ({ axis with
          state := SWITCH_ON_DISABLED
          transition := Transition.OPERATION_ENABLED_TO_SWITCH_ON_DISABLED },
       0x0000 ||| SWITCH_ON_DISABLED)
    else if IS_CIA402_COMMAND controlword Cmd.QUICK_STOP then
      ({ axis with
          state := QUICK_STOP_ACTIVE
          transition := Transition.OPERATION_ENABLED_TO_QUICK_STOP_ACTIVE },
       0x0000 ||| QUICK_STOP_ACTIVE)
    else
      (axis, 0x0000 ||| OPERATION_ENABLED)
  else if axis.state = QUICK_STOP_ACTIVE then
    if IS_CIA402_COMMAND controlword Cmd.DISABLE_VOLTAGE then
      ({ axis with
          state := SWITCH_ON_DISABLED
          transition := Transition.QUICK_STOP_ACTIVE_TO_SWITCH_ON_DISABLED },
       0x0000 ||| SWITCH_ON_DISABLED)
    else if IS_CIA402_COMMAND controlword Cmd.ENABLE_OPERATION then
      (axis, 0x0000 ||| QUICK_STOP_ACTIVE)
    else
      (axis, 0x0000 ||| QUICK_STOP_ACTIVE)
  else if axis.state = FAULT_REACTION_ACTIVE then
    ({ axis with
        state := FAULT
        transition := Transition.FAULT_REACTION_ACTIVE_TO_FAULT },
     0x0000 ||| FAULT)
  else if axis.state = FAULT then
    if IS_CIA402_COMMAND controlword Cmd.FAULT_RESET then
      ({ axis with
          state := SWITCH_ON_DISABLED
          transition := Transition.FAULT_TO_SWITCH_ON_DISABLED },
       0x0000 ||| SWITCH_ON_DISABLED)
    else
      (axis, 0x0000 ||| FAULT)
  else
    ({ axis with
        state := NOT_READY_TO_SWITCH_ON
        transition := Transition.NO_TRANSITION
        flags := { config_allowed := false, axis_func_enabled := false
                   hv_power_applied := false, brake_applied := false } },
     0x0000 ||| NOT_READY_TO_SWITCH_ON)

/-- The second `switch (axis->state)` of `cia402_state_machine`: the flag
projector, keyed on the (possibly just updated) state; the default arm leaves
the flags as they are. -/
def cia402_flag_projector (state : Nat) (flags : cia402_flags_t) : cia402_flags_t :=
  if state = SWITCH_ON_DISABLED ∨ state = READY_TO_SWITCH_ON then
    { config_allowed := true, axis_func_enabled := false
      hv_power_applied := false, brake_applied := true }
  else if state = SWITCHED_ON then
    { config_allowed := true, axis_func_enabled := false
      hv_power_applied := true, brake_applied := true }
  else if state = OPERATION_ENABLED ∨ state = QUICK_STOP_ACTIVE then
    { config_allowed := false, axis_func_enabled := true
      hv_power_applied := true, brake_applied := false }
  else if state = FAULT then
    { config_allowed := true, axis_func_enabled := false
      hv_power_applied := false, brake_applied := false }
  else
    flags

/-- The memory-free part of one `cia402_state_machine` invocation: snapshot
`prevflags`, reset `transition`, run the transition evaluator, then the flag
projector.  Returns the updated record and the final status-word value (the
status word is cleared to `0x0000` first, so its final value is exactly the
accumulated OR). -/
def cia402_step_core (axis : cia402_axis_t) (controlword : Nat) (alOp : Bool) :
    cia402_axis_t × Nat :=
  let axis0 : cia402_axis_t :=
    { axis with transition := Transition.NO_TRANSITION, prevflags := axis.flags }
  let r := cia402_transition_evaluator axis0 controlword alOp
  ({ r.1 with flags := cia402_flag_projector r.1.state r.1.flags }, r.2)

/-- The link test exactly as the machine performs it: `*ALstatus` is read
after the status word has been cleared (relevant only if the caller aliased
the two slots) and compared with `AL_STATUS_OP`.  In every execution path of
the C function the slot is read at most once, before any OR into the status
word, so hoisting the read is exact. -/
def linkIsOperational (axis : cia402_axis_t) (mem : Mem) : Bool :=
  Mem.read (Mem.write mem axis.statusword 0x0000) axis.ALstatus == AL_STATUS_OP

/-- `cia402_state_machine`: clear `*statusword`, reset `transition`, snapshot
`prevflags`, dispatch on the state, OR the resulting state's indicator bits
into `*statusword`, recompute the flags from the resulting state. -/
def cia402_state_machine (axis : cia402_axis_t) (controlword : Nat) (mem : Mem) :
    cia402_axis_t × Mem :=
  let mem0 := Mem.write mem axis.statusword 0x0000
  let r := cia402_step_core axis controlword (linkIsOperational axis mem)
  (r.1, Mem.write mem0 axis.statusword r.2)

/-- The axis record after one invocation. -/
def stepAxis (axis : cia402_axis_t) (controlword : Nat) (mem : Mem) : cia402_axis_t :=
  (cia402_state_machine axis controlword mem).1

/-- The status-word slot's value after one invocation. -/
def stepStatusword (axis : cia402_axis_t) (controlword : Nat) (mem : Mem) : Nat :=
  Mem.read (cia402_state_machine axis controlword mem).2 axis.statusword

/-- A finite run: fold the state machine over a list of
(control word, memory) inputs, the caller being free to rewrite the
memory (in particular the link-status slot) between invocations. -/
def cia402_run (axis : cia402_axis_t) : List (Nat × Mem) → cia402_axis_t
  | [] => axis
  | input :: rest => cia402_run (cia402_state_machine axis input.1 input.2).1 rest

/-- The six states reachable through the public interface (no arm of the
machine ever assigns `FAULT_REACTION_ACTIVE` or `FAULT` from these). -/
def reachableStates : List Nat :=
  [NOT_READY_TO_SWITCH_ON, SWITCH_ON_DISABLED, READY_TO_SWITCH_ON, SWITCHED_ON,
   OPERATION_ENABLED, QUICK_STOP_ACTIVE]

/-- Modelled from the spec: the §4.2 guard rows for `OperationEnabled`, in the
stated priority order (DisableOperation, then Shutdown, then DisableVoltage or
link not operational, then QuickStop), first match winning, unmatched holding
the state.  Used to compare the machine's dispatch against the spec's table. -/
def operation_enabled_guard_table (controlword : Nat) (alOp : Bool) :
    Nat × Transition :=
  if IS_CIA402_COMMAND controlword Cmd.DISABLE_OPERATION then
    (SWITCHED_ON, Transition.OPERATION_ENABLED_TO_SWITCHED_ON)
  else if IS_CIA402_COMMAND controlword Cmd.SHUTDOWN then
    (READY_TO_SWITCH_ON, Transition.OPERATION_ENABLED_TO_READY_TO_SWITCH_ON)
  else if IS_CIA402_COMMAND controlword Cmd.DISABLE_VOLTAGE || !alOp then
    (SWITCH_ON_DISABLED, Transition.OPERATION_ENABLED_TO_SWITCH_ON_DISABLED)
  else if IS_CIA402_COMMAND controlword Cmd.QUICK_STOP then
    (QUICK_STOP_ACTIVE, Transition.OPERATION_ENABLED_TO_QUICK_STOP_ACTIVE)
  else
    (OPERATION_ENABLED, Transition.NO_TRANSITION)

/-- The flag table keyed on the resulting state (the source's second switch),
as a function: the four table rows, and for a resulting NotReadyToSwitchOn the
flags the first switch left behind — the starting snapshot's flags when the
starting state was a defined one (hold), all false when the invocation went
through the unrecognized-state default arm. -/
def flagsOfResult (s : Nat) (axis : cia402_axis_t) : cia402_flags_t :=
  if s = SWITCH_ON_DISABLED ∨ s = READY_TO_SWITCH_ON then
    ⟨true, false, false, true⟩
  else if s = SWITCHED_ON then
    ⟨true, false, true, true⟩
  else if s = OPERATION_ENABLED ∨ s = QUICK_STOP_ACTIVE then
    ⟨false, true, true, false⟩
  else if s = FAULT then
    ⟨true, false, false, false⟩
  else if axis.state ∈ definedStates then
    axis.flags
  else
    ⟨false, false, false, false⟩

/-! ## Helper lemmas -/

set_option maxHeartbeats 1600000

theorem Mem.read_write (m : Mem) (a v b : Nat) :
    Mem.read (Mem.write m a v) b = if b = a then v else Mem.read m b := rfl

theorem stepAxis_eq_core (axis : cia402_axis_t) (controlword : Nat) (mem : Mem) :
    stepAxis axis controlword mem
      = (cia402_step_core axis controlword (linkIsOperational axis mem)).1 := rfl

theorem stepStatusword_eq_core (axis : cia402_axis_t) (controlword : Nat) (mem : Mem) :
    stepStatusword axis controlword mem
      = (cia402_step_core axis controlword (linkIsOperational axis mem)).2 := by
  unfold stepStatusword cia402_state_machine
  simp [Mem.read, Mem.write]

theorem step_core_statusword_eq_state (axis : cia402_axis_t) (controlword : Nat)
    (alOp : Bool) :
    (cia402_step_core axis controlword alOp).2
      = (cia402_step_core axis controlword alOp).1.state ∧
    (cia402_step_core axis controlword alOp).1.state ∈ definedStates := by
  simp only [cia402_step_core, cia402_transition_evaluator]
  split_ifs <;>
    simp_all [definedStates, NOT_READY_TO_SWITCH_ON, SWITCH_ON_DISABLED,
      READY_TO_SWITCH_ON, SWITCHED_ON, OPERATION_ENABLED, QUICK_STOP_ACTIVE,
      FAULT_REACTION_ACTIVE, FAULT] <;>
    decide

theorem step_core_preserves_refs (axis : cia402_axis_t) (controlword : Nat)
    (alOp : Bool) :
    (cia402_step_core axis controlword alOp).1.ALstatus = axis.ALstatus ∧
    (cia402_step_core axis controlword alOp).1.statusword = axis.statusword := by
  simp only [cia402_step_core, cia402_transition_evaluator]
  split_ifs <;> simp

theorem step_core_no_quickstop_enable (axis : cia402_axis_t) (controlword : Nat)
    (alOp : Bool) :
    (cia402_step_core axis controlword alOp).1.transition
      ≠ Transition.QUICK_STOP_ACTIVE_TO_OPERATION_ENABLED := by
  simp only [cia402_step_core, cia402_transition_evaluator]
  split_ifs <;> simp

theorem step_core_reachable (axis : cia402_axis_t) (controlword : Nat) (alOp : Bool)
    (h : axis.state ∈ reachableStates) :
    (cia402_step_core axis controlword alOp).1.state ∈ reachableStates := by
  simp only [cia402_step_core, cia402_transition_evaluator]
  split_ifs <;>
    simp_all [reachableStates, NOT_READY_TO_SWITCH_ON, SWITCH_ON_DISABLED,
      READY_TO_SWITCH_ON, SWITCHED_ON, OPERATION_ENABLED, QUICK_STOP_ACTIVE,
      FAULT_REACTION_ACTIVE, FAULT]

theorem run_preserves_reachable (inputs : List (Nat × Mem)) :
    ∀ axis : cia402_axis_t, axis.state ∈ reachableStates →
      (cia402_run axis inputs).state ∈ reachableStates := by
  induction inputs with
  | nil => intro axis h; simpa [cia402_run] using h
  | cons input rest ih =>
      intro axis h
      show (cia402_run (cia402_state_machine axis input.1 input.2).1 rest).state
        ∈ reachableStates
      have hstep : (cia402_state_machine axis input.1 input.2).1.state
          ∈ reachableStates := by
        rw [show (cia402_state_machine axis input.1 input.2).1
            = stepAxis axis input.1 input.2 from rfl, stepAxis_eq_core]
        exact step_core_reachable axis input.1 (linkIsOperational axis input.2) h
      exact ih _ hstep

theorem switch_on_not_disable_voltage (controlword : Nat)
    (h : IS_CIA402_COMMAND controlword Cmd.SWITCH_ON = true) :
    IS_CIA402_COMMAND controlword Cmd.DISABLE_VOLTAGE = false := by
  simp only [IS_CIA402_COMMAND, Cmd.mask, Cmd.pattern] at h ⊢
  have h' : controlword &&& 135 = 7 := by simpa using h
  have key : controlword &&& 130 = (controlword &&& 135) &&& 130 := by
    rw [Nat.land_assoc]; congr 1
  rw [h'] at key
  rw [key]
  decide

theorem step_core_flags_eq (axis : cia402_axis_t) (controlword : Nat)
    (alOp : Bool) :
    (cia402_step_core axis controlword alOp).1.flags
      = flagsOfResult (cia402_step_core axis controlword alOp).1.state axis := by
  simp only [cia402_step_core, cia402_transition_evaluator, cia402_flag_projector,
    flagsOfResult, definedStates, NOT_READY_TO_SWITCH_ON, SWITCH_ON_DISABLED,
    READY_TO_SWITCH_ON, SWITCHED_ON, OPERATION_ENABLED, QUICK_STOP_ACTIVE,
    FAULT_REACTION_ACTIVE, FAULT]
  by_cases h0 : axis.state = 0
  · cases alOp <;> simp [h0]
  by_cases h1 : axis.state = 64
  · cases hsh : IS_CIA402_COMMAND controlword Cmd.SHUTDOWN <;> cases alOp <;>
      simp [h1, hsh]
  by_cases h2 : axis.state = 33
  · cases hdv : IS_CIA402_COMMAND controlword Cmd.DISABLE_VOLTAGE <;>
    cases hso : IS_CIA402_COMMAND controlword Cmd.SWITCH_ON <;>
    cases hsoe : IS_CIA402_COMMAND controlword Cmd.SWITCH_ON_ENABLE <;>
      simp [h2, hdv, hso, hsoe]
  by_cases h3 : axis.state = 35
  · cases hsh : IS_CIA402_COMMAND controlword Cmd.SHUTDOWN <;>
    cases heo : IS_CIA402_COMMAND controlword Cmd.ENABLE_OPERATION <;>
    cases hdv : IS_CIA402_COMMAND controlword Cmd.DISABLE_VOLTAGE <;>
      simp [h3, hsh, heo, hdv]
  by_cases h4 : axis.state = 39
  · cases hdo : IS_CIA402_COMMAND controlword Cmd.DISABLE_OPERATION <;>
    cases hsh : IS_CIA402_COMMAND controlword Cmd.SHUTDOWN <;>
    cases hdv : IS_CIA402_COMMAND controlword Cmd.DISABLE_VOLTAGE <;>
    cases hqs : IS_CIA402_COMMAND controlword Cmd.QUICK_STOP <;>
    cases alOp <;>
      simp [h4, hdo, hsh, hdv, hqs]
  by_cases h5 : axis.state = 7
  · cases hdv : IS_CIA402_COMMAND controlword Cmd.DISABLE_VOLTAGE <;>
    cases heo : IS_CIA402_COMMAND controlword Cmd.ENABLE_OPERATION <;>
      simp [h5, hdv, heo]
  by_cases h6 : axis.state = 15
  · simp [h6]
  by_cases h7 : axis.state = 8
  · cases hfr : IS_CIA402_COMMAND controlword Cmd.FAULT_RESET <;> simp [h7, hfr]
  · simp [h0, h1, h2, h3, h4, h5, h6, h7]

theorem step_core_default_state (axis : cia402_axis_t) (controlword : Nat)
    (alOp : Bool) (h : axis.state ∉ definedStates) :
    (cia402_step_core axis controlword alOp).1.state = NOT_READY_TO_SWITCH_ON ∧
    (cia402_step_core axis controlword alOp).1.transition
      = Transition.NO_TRANSITION := by
  simp [definedStates, NOT_READY_TO_SWITCH_ON, SWITCH_ON_DISABLED,
    READY_TO_SWITCH_ON, SWITCHED_ON, OPERATION_ENABLED, QUICK_STOP_ACTIVE,
    FAULT_REACTION_ACTIVE, FAULT] at h
  obtain ⟨hn0, hn1, hn2, hn3, hn4, hn5, hn6, hn7⟩ := h
  simp [cia402_step_core, cia402_transition_evaluator, cia402_flag_projector,
    NOT_READY_TO_SWITCH_ON, SWITCH_ON_DISABLED, READY_TO_SWITCH_ON, SWITCHED_ON,
    OPERATION_ENABLED, QUICK_STOP_ACTIVE, FAULT_REACTION_ACTIVE, FAULT,
    hn0, hn1, hn2, hn3, hn4, hn5, hn6, hn7]

/-! ## Claim theorems -/

/-- Claim C1: after every invocation of step, for every starting state among
the eight defined states (and indeed any starting state), every control word
and every link-status value, the status word ends up equal to the
state-indicator bit pattern of exactly one of the eight defined states — the
resulting state — with no bits beyond that pattern set (also in the compound
ReadyToSwitchOn + SwitchOn + SwitchOnEnable case, where the OR of the
SwitchedOn and OperationEnabled patterns equals the OperationEnabled
pattern). -/
theorem statusword_single_state_bit (axis : cia402_axis_t) (controlword : Nat)
    (mem : Mem) :
    (stepAxis axis controlword mem).state ∈ definedStates ∧
    stepStatusword axis controlword mem = (stepAxis axis controlword mem).state ∧
    ∃! s, s ∈ definedStates ∧ stepStatusword axis controlword mem = s := by
  have h := step_core_statusword_eq_state axis controlword (linkIsOperational axis mem)
  rw [stepAxis_eq_core, stepStatusword_eq_core]
  refine ⟨h.2, h.1,
    (cia402_step_core axis controlword (linkIsOperational axis mem)).1.state,
    ⟨h.2, h.1⟩, ?_⟩
  rintro s ⟨_, hsw⟩
  exact hsw.symm.trans h.1

/-- Claim C10: initialize is infallible (a total function) and produces a
record with state NotReadyToSwitchOn, transition None, all four flags false,
prevflags equal to the just-set flags, and the two caller-owned slots bound
into the record. -/
theorem initialize_result (statusword ALstatus : Nat) :
    ( cia402_initialize statusword ALstatus).state = NOT_READY_TO_SWITCH_ON ∧
    ( cia402_initialize statusword ALstatus).transition = Transition.NO_TRANSITION ∧
    ( cia402_initialize statusword ALstatus).flags
      = ⟨false, false, false, false⟩ ∧
    ( cia402_initialize statusword ALstatus).prevflags
      = ( cia402_initialize statusword ALstatus).flags ∧
    ( cia402_initialize statusword ALstatus).statusword = statusword ∧
    ( cia402_initialize statusword ALstatus).ALstatus = ALstatus :=
  ⟨rfl, rfl, rfl, rfl, rfl, rfl⟩

/-- Claim C6: for every state value outside the eight defined ones, and every
control word and link status, step raises no error (it is total) and recovers:
resulting state NotReadyToSwitchOn, all four flags false, transition None. -/
theorem unrecognized_state_recovery (axis : cia402_axis_t) (controlword : Nat)
    (mem : Mem) (h : axis.state ∉ definedStates) :
    (stepAxis axis controlword mem).state = NOT_READY_TO_SWITCH_ON ∧
    (stepAxis axis controlword mem).flags = ⟨false, false, false, false⟩ ∧
    (stepAxis axis controlword mem).transition = Transition.NO_TRANSITION := by
  rw [stepAxis_eq_core]
  have hsd := step_core_default_state axis controlword (linkIsOperational axis mem) h
  refine ⟨hsd.1, ?_, hsd.2⟩
  rw [step_core_flags_eq, hsd.1]
  simp [flagsOfResult, NOT_READY_TO_SWITCH_ON, SWITCH_ON_DISABLED,
    READY_TO_SWITCH_ON, SWITCHED_ON, OPERATION_ENABLED, QUICK_STOP_ACTIVE,
    FAULT, h]

/-- Witness for C6 at the unrecognized state value 5 with dirty flags. -/
theorem unrecognized_state_recovery_witness :
    (stepAxis (⟨0, 1, 5, Transition.NO_TRANSITION, ⟨true, true, true, true⟩,
        ⟨true, true, true, true⟩⟩ : cia402_axis_t) 0 (fun _ => 0)).state
      = NOT_READY_TO_SWITCH_ON ∧
    (stepAxis (⟨0, 1, 5, Transition.NO_TRANSITION, ⟨true, true, true, true⟩,
        ⟨true, true, true, true⟩⟩ : cia402_axis_t) 0 (fun _ => 0)).flags
      = ⟨false, false, false, false⟩ ∧
    (stepAxis (⟨0, 1, 5, Transition.NO_TRANSITION, ⟨true, true, true, true⟩,
        ⟨true, true, true, true⟩⟩ : cia402_axis_t) 0 (fun _ => 0)).transition
      = Transition.NO_TRANSITION :=
  unrecognized_state_recovery _ 0 (fun _ => 0) (by decide)

/-- Claim C2 counterexample: a snapshot already in NotReadyToSwitchOn with all
four flags set and the link not operational; step holds the state and leaves
all four flags set, where the claim's table demands all four flags false.  So
the flags are not a pure function of the resulting state alone. -/
theorem flags_table_counterexample :
    (stepAxis (⟨0, 1, NOT_READY_TO_SWITCH_ON, Transition.NO_TRANSITION,
        ⟨true, true, true, true⟩, ⟨true, true, true, true⟩⟩ : cia402_axis_t)
        0 (fun _ => 0)).state = NOT_READY_TO_SWITCH_ON ∧
    (stepAxis (⟨0, 1, NOT_READY_TO_SWITCH_ON, Transition.NO_TRANSITION,
        ⟨true, true, true, true⟩, ⟨true, true, true, true⟩⟩ : cia402_axis_t)
        0 (fun _ => 0)).flags ≠ ⟨false, false, false, false⟩ := by
  constructor
  · rfl
  · decide

/-- Claim C2 (amended): after any invocation the four flags are given by the
§4.2 table for every resulting state except NotReadyToSwitchOn; a result of
NotReadyToSwitchOn reached through the unrecognized-state recovery has all
four flags false, while a hold in NotReadyToSwitchOn leaves the flags
unchanged from the starting snapshot. -/
theorem flags_function_of_state (axis : cia402_axis_t) (controlword : Nat)
    (mem : Mem) :
    ((stepAxis axis controlword mem).state = SWITCH_ON_DISABLED ∨
     (stepAxis axis controlword mem).state = READY_TO_SWITCH_ON →
       (stepAxis axis controlword mem).flags = ⟨true, false, false, true⟩) ∧
    ((stepAxis axis controlword mem).state = SWITCHED_ON →
       (stepAxis axis controlword mem).flags = ⟨true, false, true, true⟩) ∧
    ((stepAxis axis controlword mem).state = OPERATION_ENABLED ∨
     (stepAxis axis controlword mem).state = QUICK_STOP_ACTIVE →
       (stepAxis axis controlword mem).flags = ⟨false, true, true, false⟩) ∧
    ((stepAxis axis controlword mem).state = FAULT →
       (stepAxis axis controlword mem).flags = ⟨true, false, false, false⟩) ∧
    ((stepAxis axis controlword mem).state = NOT_READY_TO_SWITCH_ON →
       (axis.state ∈ definedStates →
         (stepAxis axis controlword mem).flags = axis.flags) ∧
       (axis.state ∉ definedStates →
         (stepAxis axis controlword mem).flags = ⟨false, false, false, false⟩)) := by
  rw [stepAxis_eq_core]
  refine ⟨?_, ?_, ?_, ?_, ?_⟩
  · intro hs
    rw [step_core_flags_eq]
    rcases hs with hs | hs <;> rw [hs] <;>
      simp [flagsOfResult, SWITCH_ON_DISABLED, READY_TO_SWITCH_ON]
  · intro hs
    rw [step_core_flags_eq, hs]
    simp [flagsOfResult, SWITCH_ON_DISABLED, READY_TO_SWITCH_ON, SWITCHED_ON]
  · intro hs
    rw [step_core_flags_eq]
    rcases hs with hs | hs <;> rw [hs] <;>
      simp [flagsOfResult, SWITCH_ON_DISABLED, READY_TO_SWITCH_ON, SWITCHED_ON,
        OPERATION_ENABLED, QUICK_STOP_ACTIVE]
  · intro hs
    rw [step_core_flags_eq, hs]
    simp [flagsOfResult, SWITCH_ON_DISABLED, READY_TO_SWITCH_ON, SWITCHED_ON,
      OPERATION_ENABLED, QUICK_STOP_ACTIVE, FAULT]
  · intro hs
    constructor
    · intro hmem
      rw [step_core_flags_eq, hs]
      simp [flagsOfResult, NOT_READY_TO_SWITCH_ON, SWITCH_ON_DISABLED,
        READY_TO_SWITCH_ON, SWITCHED_ON, OPERATION_ENABLED, QUICK_STOP_ACTIVE,
        FAULT, hmem]
    · intro hmem
      rw [step_core_flags_eq, hs]
      simp [flagsOfResult, NOT_READY_TO_SWITCH_ON, SWITCH_ON_DISABLED,
        READY_TO_SWITCH_ON, SWITCHED_ON, OPERATION_ENABLED, QUICK_STOP_ACTIVE,
        FAULT, hmem]

/-- Claim C3: from QuickStopActive, a control word matching EnableOperation and
not matching DisableVoltage holds the state (QuickStopActive), leaves
transition None, writes the QuickStopActive indicator into the status word;
and the QuickStopActive-to-OperationEnabled transition never fires for any
input whatsoever. -/
theorem quick_stop_enable_operation_locked (axis : cia402_axis_t)
    (controlword : Nat) (mem : Mem)
    (hstate : axis.state = QUICK_STOP_ACTIVE)
    (heo : IS_CIA402_COMMAND controlword Cmd.ENABLE_OPERATION = true)
    (hdv : IS_CIA402_COMMAND controlword Cmd.DISABLE_VOLTAGE = false) :
    (stepAxis axis controlword mem).state = QUICK_STOP_ACTIVE ∧
    (stepAxis axis controlword mem).transition = Transition.NO_TRANSITION ∧
    stepStatusword axis controlword mem = QUICK_STOP_ACTIVE ∧
    ∀ (a : cia402_axis_t) (c : Nat) (m : Mem),
      (stepAxis a c m).transition
        ≠ Transition.QUICK_STOP_ACTIVE_TO_OPERATION_ENABLED := by
  rw [stepAxis_eq_core, stepStatusword_eq_core]
  refine ⟨?_, ?_, ?_, ?_⟩
  · simp [cia402_step_core, cia402_transition_evaluator, cia402_flag_projector,
      hstate, heo, hdv, NOT_READY_TO_SWITCH_ON, SWITCH_ON_DISABLED,
      READY_TO_SWITCH_ON, SWITCHED_ON, OPERATION_ENABLED, QUICK_STOP_ACTIVE,
      FAULT_REACTION_ACTIVE, FAULT]
  · simp [cia402_step_core, cia402_transition_evaluator, cia402_flag_projector,
      hstate, heo, hdv, NOT_READY_TO_SWITCH_ON, SWITCH_ON_DISABLED,
      READY_TO_SWITCH_ON, SWITCHED_ON, OPERATION_ENABLED, QUICK_STOP_ACTIVE,
      FAULT_REACTION_ACTIVE, FAULT]
  · simp [cia402_step_core, cia402_transition_evaluator, cia402_flag_projector,
      hstate, heo, hdv, NOT_READY_TO_SWITCH_ON, SWITCH_ON_DISABLED,
      READY_TO_SWITCH_ON, SWITCHED_ON, OPERATION_ENABLED, QUICK_STOP_ACTIVE,
      FAULT_REACTION_ACTIVE, FAULT]
  · intro a c m
    rw [stepAxis_eq_core]
    exact step_core_no_quickstop_enable a c (linkIsOperational a m)

/-- Witness for C3: control word 0x000F (EnableOperation, not DisableVoltage)
from QuickStopActive. -/
theorem quick_stop_enable_operation_locked_witness :
    (stepAxis (⟨0, 1, QUICK_STOP_ACTIVE, Transition.NO_TRANSITION,
        ⟨false, true, true, false⟩, ⟨false, true, true, false⟩⟩ : cia402_axis_t)
        0x000F (fun _ => 0)).state = QUICK_STOP_ACTIVE ∧
    (stepAxis (⟨0, 1, QUICK_STOP_ACTIVE, Transition.NO_TRANSITION,
        ⟨false, true, true, false⟩, ⟨false, true, true, false⟩⟩ : cia402_axis_t)
        0x000F (fun _ => 0)).transition = Transition.NO_TRANSITION ∧
    stepStatusword (⟨0, 1, QUICK_STOP_ACTIVE, Transition.NO_TRANSITION,
        ⟨false, true, true, false⟩, ⟨false, true, true, false⟩⟩ : cia402_axis_t)
        0x000F (fun _ => 0) = QUICK_STOP_ACTIVE ∧
    ∀ (a : cia402_axis_t) (c : Nat) (m : Mem),
      (stepAxis a c m).transition
        ≠ Transition.QUICK_STOP_ACTIVE_TO_OPERATION_ENABLED :=
  quick_stop_enable_operation_locked _ 0x000F (fun _ => 0) rfl (by decide)
    (by decide)

/-- Claim C7: starting from an initialized record, no finite sequence of step
invocations — with any control words and any memories (hence any link-status
values) — ever reaches FaultReactionActive or Fault: no transition arm assigns
FaultReactionActive, so the fault entry path is unreachable through the public
interface. -/
theorem fault_states_unreachable (statusword ALstatus : Nat)
    (inputs : List (Nat × Mem)) :
    (cia402_run ( cia402_initialize statusword ALstatus) inputs).state
      ≠ FAULT_REACTION_ACTIVE ∧
    (cia402_run ( cia402_initialize statusword ALstatus) inputs).state
      ≠ FAULT := by
  have h : (cia402_run ( cia402_initialize statusword ALstatus) inputs).state
      ∈ reachableStates :=
    run_preserves_reachable inputs ( cia402_initialize statusword ALstatus)
      (by simp [ cia402_initialize, reachableStates])
  simp only [reachableStates, NOT_READY_TO_SWITCH_ON, SWITCH_ON_DISABLED,
    READY_TO_SWITCH_ON, SWITCHED_ON, OPERATION_ENABLED, QUICK_STOP_ACTIVE,
    List.mem_cons, List.not_mem_nil, or_false] at h
  rcases h with h | h | h | h | h | h <;>
    simp [h, FAULT_REACTION_ACTIVE, FAULT]

/-- Claim C4: from OperationEnabled the guards are evaluated in the fixed
priority order DisableOperation, Shutdown, (DisableVoltage or link not
operational), QuickStop, first match winning — the dispatch coincides with the
spec's priority table; and any control word matching both DisableVoltage and
QuickStop (and neither DisableOperation nor Shutdown) yields SwitchOnDisabled
with the OperationEnabled-to-SwitchOnDisabled transition, not QuickStopActive. -/
theorem operation_enabled_guard_priority (axis : cia402_axis_t)
    (controlword : Nat) (mem : Mem)
    (hstate : axis.state = OPERATION_ENABLED) :
    ((stepAxis axis controlword mem).state,
      (stepAxis axis controlword mem).transition)
      = operation_enabled_guard_table controlword (linkIsOperational axis mem) ∧
    (IS_CIA402_COMMAND controlword Cmd.DISABLE_VOLTAGE = true →
     IS_CIA402_COMMAND controlword Cmd.QUICK_STOP = true →
     IS_CIA402_COMMAND controlword Cmd.DISABLE_OPERATION = false →
     IS_CIA402_COMMAND controlword Cmd.SHUTDOWN = false →
       (stepAxis axis controlword mem).state = SWITCH_ON_DISABLED ∧
       (stepAxis axis controlword mem).transition
         = Transition.OPERATION_ENABLED_TO_SWITCH_ON_DISABLED) := by
  rw [stepAxis_eq_core]
  constructor
  · cases hdo : IS_CIA402_COMMAND controlword Cmd.DISABLE_OPERATION <;>
    cases hsh : IS_CIA402_COMMAND controlword Cmd.SHUTDOWN <;>
    cases hdv : IS_CIA402_COMMAND controlword Cmd.DISABLE_VOLTAGE <;>
    cases hqs : IS_CIA402_COMMAND controlword Cmd.QUICK_STOP <;>
    cases halOp : linkIsOperational axis mem <;>
      simp [cia402_step_core, cia402_transition_evaluator, cia402_flag_projector,
        operation_enabled_guard_table, hstate, hdo, hsh, hdv, hqs, halOp,
        NOT_READY_TO_SWITCH_ON, SWITCH_ON_DISABLED, READY_TO_SWITCH_ON,
        SWITCHED_ON, OPERATION_ENABLED, QUICK_STOP_ACTIVE,
        FAULT_REACTION_ACTIVE, FAULT]
  · intro hdv hqs hdo hsh
    simp [cia402_step_core, cia402_transition_evaluator, cia402_flag_projector,
      hstate, hdv, hqs, hdo, hsh, NOT_READY_TO_SWITCH_ON, SWITCH_ON_DISABLED,
      READY_TO_SWITCH_ON, SWITCHED_ON, OPERATION_ENABLED, QUICK_STOP_ACTIVE,
      FAULT_REACTION_ACTIVE, FAULT]

/-- Witness for C4 at control word 0 (a DisableVoltage word) from
OperationEnabled with an all-zero memory. -/
theorem operation_enabled_guard_priority_witness :
    ((stepAxis (⟨0, 1, OPERATION_ENABLED, Transition.NO_TRANSITION,
        ⟨false, true, true, false⟩, ⟨false, true, true, false⟩⟩ : cia402_axis_t)
        0 (fun _ => 0)).state,
      (stepAxis (⟨0, 1, OPERATION_ENABLED, Transition.NO_TRANSITION,
        ⟨false, true, true, false⟩, ⟨false, true, true, false⟩⟩ : cia402_axis_t)
        0 (fun _ => 0)).transition)
      = operation_enabled_guard_table 0
          (linkIsOperational (⟨0, 1, OPERATION_ENABLED, Transition.NO_TRANSITION,
            ⟨false, true, true, false⟩, ⟨false, true, true, false⟩⟩ : cia402_axis_t)
            (fun _ => 0)) ∧
    (IS_CIA402_COMMAND 0 Cmd.DISABLE_VOLTAGE = true →
     IS_CIA402_COMMAND 0 Cmd.QUICK_STOP = true →
     IS_CIA402_COMMAND 0 Cmd.DISABLE_OPERATION = false →
     IS_CIA402_COMMAND 0 Cmd.SHUTDOWN = false →
       (stepAxis (⟨0, 1, OPERATION_ENABLED, Transition.NO_TRANSITION,
          ⟨false, true, true, false⟩, ⟨false, true, true, false⟩⟩ : cia402_axis_t)
          0 (fun _ => 0)).state = SWITCH_ON_DISABLED ∧
       (stepAxis (⟨0, 1, OPERATION_ENABLED, Transition.NO_TRANSITION,
          ⟨false, true, true, false⟩, ⟨false, true, true, false⟩⟩ : cia402_axis_t)
          0 (fun _ => 0)).transition
         = Transition.OPERATION_ENABLED_TO_SWITCH_ON_DISABLED) :=
  operation_enabled_guard_priority _ 0 (fun _ => 0) rfl

/-- Claim C5: from ReadyToSwitchOn, a control word matching both SwitchOn and
SwitchOnEnable (and not DisableVoltage) reaches OperationEnabled in the single
invocation with exactly the combined transition tag
READY_TO_SWITCH_ON_TO_OPERATION_ENABLED (not the tag of transition 3); a word
matching SwitchOn but not SwitchOnEnable yields SwitchedOn with tag
READY_TO_SWITCH_ON_TO_SWITCHED_ON. -/
theorem ready_to_switch_on_compound (axis : cia402_axis_t) (controlword : Nat)
    (mem : Mem) (hstate : axis.state = READY_TO_SWITCH_ON) :
    (IS_CIA402_COMMAND controlword Cmd.SWITCH_ON = true →
     IS_CIA402_COMMAND controlword Cmd.SWITCH_ON_ENABLE = true →
     IS_CIA402_COMMAND controlword Cmd.DISABLE_VOLTAGE = false →
       (stepAxis axis controlword mem).state = OPERATION_ENABLED ∧
       (stepAxis axis controlword mem).transition
         = Transition.READY_TO_SWITCH_ON_TO_OPERATION_ENABLED ∧
       (stepAxis axis controlword mem).transition
         ≠ Transition.READY_TO_SWITCH_ON_TO_SWITCHED_ON) ∧
    (IS_CIA402_COMMAND controlword Cmd.SWITCH_ON = true →
     IS_CIA402_COMMAND controlword Cmd.SWITCH_ON_ENABLE = false →
       (stepAxis axis controlword mem).state = SWITCHED_ON ∧
       (stepAxis axis controlword mem).transition
         = Transition.READY_TO_SWITCH_ON_TO_SWITCHED_ON) := by
  rw [stepAxis_eq_core]
  constructor
  · intro hso hsoe hdv
    simp [cia402_step_core, cia402_transition_evaluator, cia402_flag_projector,
      hstate, hso, hsoe, hdv, NOT_READY_TO_SWITCH_ON, SWITCH_ON_DISABLED,
      READY_TO_SWITCH_ON, SWITCHED_ON, OPERATION_ENABLED, QUICK_STOP_ACTIVE,
      FAULT_REACTION_ACTIVE, FAULT]
  · intro hso hsoe
    have hdv := switch_on_not_disable_voltage controlword hso
    simp [cia402_step_core, cia402_transition_evaluator, cia402_flag_projector,
      hstate, hso, hsoe, hdv, NOT_READY_TO_SWITCH_ON, SWITCH_ON_DISABLED,
      READY_TO_SWITCH_ON, SWITCHED_ON, OPERATION_ENABLED, QUICK_STOP_ACTIVE,
      FAULT_REACTION_ACTIVE, FAULT]

/-- Witness for C5 at control word 0x000F (SwitchOn and SwitchOnEnable both
matching) from ReadyToSwitchOn. -/
theorem ready_to_switch_on_compound_witness :
    (IS_CIA402_COMMAND 0x000F Cmd.SWITCH_ON = true →
     IS_CIA402_COMMAND 0x000F Cmd.SWITCH_ON_ENABLE = true →
     IS_CIA402_COMMAND 0x000F Cmd.DISABLE_VOLTAGE = false →
       (stepAxis (⟨0, 1, READY_TO_SWITCH_ON, Transition.NO_TRANSITION,
          ⟨true, false, false, true⟩, ⟨true, false, false, true⟩⟩ : cia402_axis_t)
          0x000F (fun _ => 0)).state = OPERATION_ENABLED ∧
       (stepAxis (⟨0, 1, READY_TO_SWITCH_ON, Transition.NO_TRANSITION,
          ⟨true, false, false, true⟩, ⟨true, false, false, true⟩⟩ : cia402_axis_t)
          0x000F (fun _ => 0)).transition
         = Transition.READY_TO_SWITCH_ON_TO_OPERATION_ENABLED ∧
       (stepAxis (⟨0, 1, READY_TO_SWITCH_ON, Transition.NO_TRANSITION,
          ⟨true, false, false, true⟩, ⟨true, false, false, true⟩⟩ : cia402_axis_t)
          0x000F (fun _ => 0)).transition
         ≠ Transition.READY_TO_SWITCH_ON_TO_SWITCHED_ON) ∧
    (IS_CIA402_COMMAND 0x000F Cmd.SWITCH_ON = true →
     IS_CIA402_COMMAND 0x000F Cmd.SWITCH_ON_ENABLE = false →
       (stepAxis (⟨0, 1, READY_TO_SWITCH_ON, Transition.NO_TRANSITION,
          ⟨true, false, false, true⟩, ⟨true, false, false, true⟩⟩ : cia402_axis_t)
          0x000F (fun _ => 0)).state = SWITCHED_ON ∧
       (stepAxis (⟨0, 1, READY_TO_SWITCH_ON, Transition.NO_TRANSITION,
          ⟨true, false, false, true⟩, ⟨true, false, false, true⟩⟩ : cia402_axis_t)
          0x000F (fun _ => 0)).transition
         = Transition.READY_TO_SWITCH_ON_TO_SWITCHED_ON) :=
  ready_to_switch_on_compound _ 0x000F (fun _ => 0) rfl

/-- Claim C8: the machine classifies the link status only as Operational
versus not: for any two link-status slot values both different from the
AL_STATUS_OP sentinel, the invocation produces the identical resulting record
and the identical status-word value. -/
theorem linkstatus_binary_classification (axis : cia402_axis_t)
    (controlword : Nat) (mem : Mem) (v1 v2 : Nat)
    (h1 : v1 ≠ AL_STATUS_OP) (h2 : v2 ≠ AL_STATUS_OP) :
    stepAxis axis controlword (Mem.write mem axis.ALstatus v1)
      = stepAxis axis controlword (Mem.write mem axis.ALstatus v2) ∧
    stepStatusword axis controlword (Mem.write mem axis.ALstatus v1)
      = stepStatusword axis controlword (Mem.write mem axis.ALstatus v2) := by
  have hal : linkIsOperational axis (Mem.write mem axis.ALstatus v1)
      = linkIsOperational axis (Mem.write mem axis.ALstatus v2) := by
    simp only [linkIsOperational, Mem.read, Mem.write]
    by_cases hab : axis.ALstatus = axis.statusword
    · simp [hab]
    · have e1 : (v1 == AL_STATUS_OP) = false := by simpa using h1
      have e2 : (v2 == AL_STATUS_OP) = false := by simpa using h2
      simp [hab, e1, e2]
  rw [stepAxis_eq_core, stepAxis_eq_core, stepStatusword_eq_core,
    stepStatusword_eq_core, hal]
  exact ⟨rfl, rfl⟩

/-- Witness for C8: the two non-operational link values 0 and 1 produce the
same outcome from an initialized record. -/
theorem linkstatus_binary_classification_witness :
    stepAxis ( cia402_initialize 1 0) 0 (Mem.write (fun _ => 0) 0 0)
      = stepAxis ( cia402_initialize 1 0) 0 (Mem.write (fun _ => 0) 0 1) ∧
    stepStatusword ( cia402_initialize 1 0) 0 (Mem.write (fun _ => 0) 0 0)
      = stepStatusword ( cia402_initialize 1 0) 0 (Mem.write (fun _ => 0) 0 1) :=
  linkstatus_binary_classification ( cia402_initialize 1 0) 0 (fun _ => 0) 0 1
    (by decide) (by decide)

/-- Claim C9: an invocation never writes through the link-status reference
(the caller-owned link-status slot keeps its value), and the two references
bound at initialization stay bound to the same slots. -/
theorem linkstatus_slot_preserved (axis : cia402_axis_t) (controlword : Nat)
    (mem : Mem) (h : axis.ALstatus ≠ axis.statusword) :
    Mem.read (cia402_state_machine axis controlword mem).2 axis.ALstatus
      = Mem.read mem axis.ALstatus ∧
    (stepAxis axis controlword mem).ALstatus = axis.ALstatus ∧
    (stepAxis axis controlword mem).statusword = axis.statusword := by
  refine ⟨?_, ?_, ?_⟩
  · show Mem.read (Mem.write (Mem.write mem axis.statusword 0x0000)
      axis.statusword _) axis.ALstatus = Mem.read mem axis.ALstatus
    simp [Mem.read, Mem.write, h]
  · rw [stepAxis_eq_core]
    exact (step_core_preserves_refs axis controlword
      (linkIsOperational axis mem)).1
  · rw [stepAxis_eq_core]
    exact (step_core_preserves_refs axis controlword
      (linkIsOperational axis mem)).2

/-- Witness for C9 on an initialized record with distinct slots 0 and 1. -/
theorem linkstatus_slot_preserved_witness :
    Mem.read (cia402_state_machine ( cia402_initialize 1 0) 0 (fun _ => 9)).2
      ( cia402_initialize 1 0).ALstatus
      = Mem.read (fun _ => 9) ( cia402_initialize 1 0).ALstatus ∧
    (stepAxis ( cia402_initialize 1 0) 0 (fun _ => 9)).ALstatus
      = ( cia402_initialize 1 0).ALstatus ∧
    (stepAxis ( cia402_initialize 1 0) 0 (fun _ => 9)).statusword
      = ( cia402_initialize 1 0).statusword :=
  linkstatus_slot_preserved ( cia402_initialize 1 0) 0 (fun _ => 9) (by decide)
